import Mathlib

/-!
Shallow embedding of the Askit backend (Google-Drive RAG assistant) for
specification checking.

The embedding covers:

* `src/backend/query_engine.py` — `DateParser.parse_date`, and the
  `EnhancedQueryEngine` methods `hybrid_query`, `_metadata_only_search`,
  `_matches_filters`, `_apply_metadata_filters`, `_filter_by_relevance`,
  `_date_matches`, `_value_matches` and `query`.
* `src/backend/google_drive_utils.py` — `index_folder`.
* `src/backend/indexer.py` — `DocumentIndexer.create_index` and the
  `FILTERING_METADATA` constant.

Modelling conventions:

* Python `datetime` values are modelled by `Askit.PyDateTime`
  (year/month/day/hour/minute/second; microseconds are not modelled).
  Python similarity scores are modelled by `ℚ`.
* External collaborators that are out of scope for the repository
  (`dateutil.parser.parse`, `datetime.fromisoformat`, the vector
  retriever, the LLM completion service, the query-planner extraction
  step) are taken as function parameters ("oracles"): every theorem
  quantifies over them, so nothing proved depends on their innards.
* Python exceptions that escape a function are modelled with
  `Except String`; exception paths that the source catches locally
  (`try`/`except` returning `False`) are folded into the `Bool` result,
  exactly as the source does.
* Python dictionaries are modelled as association lists with an upsert
  operation (`dictSet`); `dict.get` returning `None` for a missing key
  and a stored `None` value are both modelled by `Option`.
-/

namespace Askit

/-- Computable decidable equality for `Except`, so concrete runs of the
embedded functions can be checked with `decide`. -/
instance {e a : Type _} [DecidableEq e] [DecidableEq a] : DecidableEq (Except e a)
  | Except.error x, Except.error y =>
    if h : x = y then isTrue (congrArg Except.error h)
    else isFalse (fun hc => h (Except.error.inj hc))
  | Except.error _, Except.ok _ => isFalse (fun hc => Except.noConfusion hc)
  | Except.ok _, Except.error _ => isFalse (fun hc => Except.noConfusion hc)
  | Except.ok x, Except.ok y =>
    if h : x = y then isTrue (congrArg Except.ok h)
    else isFalse (fun hc => h (Except.ok.inj hc))

/-! ### Python `datetime` model -/

/-- Model of a Python `datetime.datetime` value (microseconds omitted). -/
structure PyDateTime where
  year : Nat
  month : Nat
  day : Nat
  hour : Nat
  minute : Nat
  second : Nat
deriving DecidableEq, Repr

/-- `datetime.min` (Python: year 1, Jan 1, midnight). -/
def pyMinDT : PyDateTime := ⟨1, 1, 1, 0, 0, 0⟩

/-- `datetime.max` (Python: year 9999, Dec 31, 23:59:59.999999; we drop the
microseconds, which the code never inspects). -/
def pyMaxDT : PyDateTime := ⟨9999, 12, 31, 23, 59, 59⟩

/-- Python `a <= b` on datetimes: lexicographic on the components. -/
def PyDateTime.leb (a b : PyDateTime) : Bool :=
  if a.year ≠ b.year then decide (a.year < b.year)
  else if a.month ≠ b.month then decide (a.month < b.month)
  else if a.day ≠ b.day then decide (a.day < b.day)
  else if a.hour ≠ b.hour then decide (a.hour < b.hour)
  else if a.minute ≠ b.minute then decide (a.minute < b.minute)
  else decide (a.second ≤ b.second)

/-- Python `a < b` on datetimes. -/
def PyDateTime.ltb (a b : PyDateTime) : Bool :=
  a.leb b && decide (a ≠ b)

/-- Gregorian leap-year test, as used by Python's `calendar`/`datetime`. -/
def isLeap (y : Nat) : Bool :=
  (y % 4 == 0 && y % 100 != 0) || (y % 400 == 0)

/-- Days in a Gregorian month. -/
def daysInMonth (y m : Nat) : Nat :=
  if m = 2 then (if isLeap y then 29 else 28)
  else if m = 4 ∨ m = 6 ∨ m = 9 ∨ m = 11 then 30
  else 31

/-- Serial day number of a civil date (days since 0000-03-01, shifted so the
computation stays in `Nat`; valid for years ≥ 1, which covers Python's
`datetime` range). Standard civil-calendar conversion. -/
def daysFromCivil (y m d : Nat) : Nat :=
  let y' := if m ≤ 2 then y - 1 else y
  let era := y' / 400
  let yoe := y' - era * 400
  let mp := (m + 9) % 12
  let doy := (153 * mp + 2) / 5 + d - 1
  let doe := yoe * 365 + yoe / 4 - yoe / 100 + doy
  era * 146097 + doe

/-- Inverse of `daysFromCivil`: civil date from the serial day number. -/
def civilFromDays (z : Nat) : Nat × Nat × Nat :=
  let era := z / 146097
  let doe := z % 146097
  let yoe := (doe - doe / 1460 + doe / 36524 - doe / 146096) / 365
  let y := yoe + era * 400
  let doy := doe - (365 * yoe + yoe / 4 - yoe / 100)
  let mp := (5 * doy + 2) / 153
  let d := doy - (153 * mp + 2) / 5 + 1
  let m := if mp < 10 then mp + 3 else mp - 9
  (if m ≤ 2 then y + 1 else y, m, d)

/-- Python `dt - timedelta(days=n)` (time of day unchanged). -/
def subDays (dt : PyDateTime) (n : Nat) : PyDateTime :=
  let z := daysFromCivil dt.year dt.month dt.day
  let c := civilFromDays (z - n)
  ⟨c.1, c.2.1, c.2.2, dt.hour, dt.minute, dt.second⟩

/-- Python `dt + timedelta(days=n)` (time of day unchanged). -/
def addDays (dt : PyDateTime) (n : Nat) : PyDateTime :=
  let z := daysFromCivil dt.year dt.month dt.day
  let c := civilFromDays (z + n)
  ⟨c.1, c.2.1, c.2.2, dt.hour, dt.minute, dt.second⟩

/-- Python `dt - relativedelta(months=1)`: go back one calendar month,
clamping the day to the length of the target month. -/
def subOneMonth (dt : PyDateTime) : PyDateTime :=
  let y := if dt.month = 1 then dt.year - 1 else dt.year
  let m := if dt.month = 1 then 12 else dt.month - 1
  ⟨y, m, min dt.day (daysInMonth y m), dt.hour, dt.minute, dt.second⟩

/-- Python `dt - relativedelta(years=1)`: go back one year, clamping
Feb 29 to Feb 28 when the target year is not a leap year. -/
def subOneYear (dt : PyDateTime) : PyDateTime :=
  let y := dt.year - 1
  ⟨y, dt.month, min dt.day (daysInMonth y dt.month), dt.hour, dt.minute, dt.second⟩

/-! ### Regular-expression fragments used by `DateParser.parse_date`

`parse_date` uses `re.match` with the patterns `before\s+(.+)`,
`after\s+(.+)` and `between\s+(.+)\s+and\s+(.+)`.  We implement exactly
those anchored patterns on character lists: `\s+` is a non-empty
whitespace run (taken greedily), `.+` is a non-empty run of
non-newline characters, and the first group of the `between` pattern is
maximal (greedy with backtracking), i.e. the split happens at the last
occurrence of a whitespace-delimited `and`. -/

/-- Python `str.lower()` (ASCII; structural so the kernel can evaluate it). -/
def pyLower (s : String) : String :=
  String.mk (s.toList.map Char.toLower)

/-- Python `str.strip()`: drop leading and trailing whitespace. -/
def pyStrip (s : String) : String :=
  String.mk
    (((s.toList.dropWhile Char.isWhitespace).reverse.dropWhile Char.isWhitespace).reverse)

/-- Strip a literal prefix from a character list. -/
def stripLit : List Char → List Char → Option (List Char)
  | [], cs => some cs
  | _ :: _, [] => none
  | p :: ps, c :: cs => if p = c then stripLit ps cs else none

/-- Match `\s+`: require at least one whitespace character, drop the
maximal whitespace run. -/
def wsRun1 (cs : List Char) : Option (List Char) :=
  match cs with
  | [] => none
  | c :: rest => if c.isWhitespace then some (rest.dropWhile Char.isWhitespace) else none

/-- Match the tail `\s+and\s+(.+)` of the `between` pattern, returning
the second capture group (`.+`: up to the first newline, non-empty). -/
def matchAndTail (cs : List Char) : Option (List Char) := do
  let cs1 ← wsRun1 cs
  let cs2 ← stripLit "and".toList cs1
  let cs3 ← wsRun1 cs2
  let g2 := cs3.takeWhile (· ≠ '\n')
  if g2 = [] then none else some g2

/-- Find the split of `rem` into the two groups of
`(.+)\s+and\s+(.+)`, trying the longest first group first (greedy
backtracking, as `re` does). `k` is the candidate length of group 1. -/
def betweenSplitAux (rem : List Char) : Nat → Option (List Char × List Char)
  | 0 => none
  | Nat.succ k =>
    let g1 := rem.take (Nat.succ k)
    if g1.contains '\n' then betweenSplitAux rem k
    else
      match matchAndTail (rem.drop (Nat.succ k)) with
      | some g2 => some (g1, g2)
      | none => betweenSplitAux rem k

/-- `re.match(kw ++ "\s+(.+)", s)`: anchored keyword, then `\s+`, then
the non-empty non-newline capture group. -/
def matchKw (kw : String) (s : String) : Option String := do
  let cs1 ← stripLit kw.toList s.toList
  let cs2 ← wsRun1 cs1
  let g := cs2.takeWhile (· ≠ '\n')
  if g = [] then none else some (String.mk g)

/-- `re.match("between\s+(.+)\s+and\s+(.+)", s)`: both capture groups. -/
def matchBetween (s : String) : Option (String × String) := do
  let cs1 ← stripLit "between".toList s.toList
  let rem ← wsRun1 cs1
  let (g1, g2) ← betweenSplitAux rem rem.length
  pure (String.mk g1, String.mk g2)

/-! ### `DateParser.parse_date` (src/backend/query_engine.py, lines 29-78)

`p` stands in for the external `dateutil.parser.parse` collaborator
(`p s = none` models `parser.parse` raising).  `now` stands in for
`datetime.now()`.  A raised exception (either `dateutil` failing inside
the `before`/`after`/`between` branches, or the function's own
`ValueError`) is modelled as `Except.error`. -/

def parse_date (p : String → Option PyDateTime) (now : PyDateTime)
    (date_str0 : String) : Except String (PyDateTime × PyDateTime) :=
  let date_str := pyStrip (pyLower date_str0)
  if date_str = "yesterday" then
    let start := subDays now 1
    Except.ok (start, addDays start 1)
  else if date_str = "last week" then Except.ok (subDays now 7, now)
  else if date_str = "last month" then Except.ok (subOneMonth now, now)
  else if date_str = "last year" then Except.ok (subOneYear now, now)
  else if date_str = "this month" then Except.ok ({ now with day := 1 }, now)
  else if date_str = "this year" then Except.ok ({ now with month := 1, day := 1 }, now)
  else
    match matchKw "before" date_str with
    | some g =>
      match p g with
      | some date => Except.ok (pyMinDT, date)
      | none => Except.error ("ParserError: " ++ g)
    | none =>
      match matchKw "after" date_str with
      | some g =>
        match p g with
        | some date => Except.ok (date, pyMaxDT)
        | none => Except.error ("ParserError: " ++ g)
      | none =>
        match matchBetween date_str with
        | some (g1, g2) =>
          match p g1, p g2 with
          | some d1, some d2 => Except.ok (d1, d2)
          | _, _ => Except.error ("ParserError: " ++ g1 ++ " and " ++ g2)
        | none =>
          match p date_str with
          | some date => Except.ok (date, date)
          | none => Except.error ("Could not parse date: " ++ date_str)

/-! ### Python values stored in node metadata and used as filter values -/

/-- A Python value as it occurs in node metadata and filter dictionaries:
a string, a number (Python `int`/`float`, modelled as `ℚ`), or a list
(restricted to lists of strings, the only lists this pipeline passes
around). -/
inductive PyVal where
  | str (s : String)
  | num (q : ℚ)
  | list (l : List String)
deriving DecidableEq

/-- Python truthiness of a value (`if not x`). -/
def pyTruthy : PyVal → Bool
  | PyVal.str s => decide (s ≠ "")
  | PyVal.num q => decide (q ≠ 0)
  | PyVal.list l => decide (l ≠ [])

/-- Decimal digits of a natural number (kernel-reducible `toString`). -/
def natStrAux : Nat → Nat → List Char
  | _, 0 => []
  | 0, _ + 1 => []
  | n + 1, fuel + 1 =>
    natStrAux ((n + 1) / 10) fuel ++ [Char.ofNat (48 + (n + 1) % 10)]

/-- Decimal rendering of a natural number. -/
def natStr (n : Nat) : String :=
  if n = 0 then "0" else String.mk (natStrAux n n)

/-- Decimal rendering of an integer. -/
def intStr (i : Int) : String :=
  if i < 0 then "-" ++ natStr i.natAbs else natStr i.natAbs

/-- Python `str()` of a number. Exact for integers; non-integer rationals
are rendered as a fraction (an approximation of Python float formatting —
no theorem below depends on this case). -/
def ratStr (q : ℚ) : String :=
  if q.den = 1 then intStr q.num else intStr q.num ++ "/" ++ natStr q.den

/-- Comma-separated rendering of a list (approximation of Python list
`str()`: element quoting is not reproduced; no theorem depends on it). -/
def strJoinComma : List String → String
  | [] => ""
  | [v] => v
  | v :: rest => v ++ ", " ++ strJoinComma rest

/-- Python `str()` of a `PyVal`. -/
def pyStr : PyVal → String
  | PyVal.str s => s
  | PyVal.num q => ratStr q
  | PyVal.list l => "[" ++ strJoinComma l ++ "]"

/-- Value of the digit run `ds`. -/
def digitsToNat (ds : List Char) : Nat :=
  ds.foldl (fun n c => n * 10 + (c.toNat - 48)) 0

/-- Python `float(string)`: optional surrounding whitespace, optional
sign, then digits with an optional fractional part (at least one digit
overall). Exponents, `inf`/`nan` and underscores are not modelled; no
theorem depends on which numeric strings are accepted, only on the
failure branch. `none` models `ValueError`. -/
def parseFloatQ (s : String) : Option ℚ :=
  let cs :=
    ((s.toList.dropWhile Char.isWhitespace).reverse.dropWhile Char.isWhitespace).reverse
  let signed : ℚ × List Char :=
    match cs with
    | '-' :: rest => (-1, rest)
    | '+' :: rest => (1, rest)
    | _ => (1, cs)
  let intPart := signed.2.takeWhile Char.isDigit
  let rest := signed.2.dropWhile Char.isDigit
  match rest with
  | [] => if intPart = [] then none else some (signed.1 * digitsToNat intPart)
  | '.' :: frac =>
    if frac.all Char.isDigit ∧ (intPart ≠ [] ∨ frac ≠ []) then
      some (signed.1 *
        ((digitsToNat intPart : ℚ) + (digitsToNat frac : ℚ) / (10 ^ frac.length)))
    else none
  | _ => none

/-- Python `float(value)`: numbers convert to themselves, strings are
parsed, anything else raises (`none`). -/
def pyFloat? : PyVal → Option ℚ
  | PyVal.num q => some q
  | PyVal.str s => parseFloatQ s
  | PyVal.list _ => none

/-- Python `needle in hay` on strings (substring test). -/
def containsSubAux (needle : List Char) : List Char → Bool
  | [] => decide (needle = [])
  | c :: rest => (stripLit needle (c :: rest)).isSome || containsSubAux needle rest

/-- Python `needle in hay` on strings. -/
def containsSub (hay needle : String) : Bool :=
  containsSubAux needle.toList hay.toList

/-- Python `str.replace(c, rep)` for a one-character pattern (the code
only ever replaces `"Z"`). -/
def pyReplace1 (c : Char) (rep : String) (s : String) : String :=
  String.mk ((s.toList.map (fun x => if x = c then rep.toList else [x])).flatten)

/-! ### `_value_matches` (src/backend/query_engine.py, lines 277-318) -/

/-- Comparison operator extracted by the regex `([<>]=?|~=|=)?(.+)`. -/
inductive CmpOp where
  | gt | lt | ge | le | approx | eq
deriving DecidableEq

/-- `re.match(r"([<>]=?|~=|=)?(.+)", target)`: `none` models the regex
failing (only possible on the empty string); otherwise the optional
operator group and the value group, with the regex's greedy
backtracking (e.g. `">="` alone parses as operator `>` with value `"="`,
since the value group must be non-empty). -/
def splitOp (t : String) : Option (Option CmpOp × String) :=
  match t.toList with
  | [] => none
  | c :: rest =>
    if c = '<' ∨ c = '>' then
      match rest with
      | '=' :: rest2 =>
        if rest2 ≠ [] then
          some (some (if c = '<' then CmpOp.le else CmpOp.ge), String.mk rest2)
        else some (some (if c = '<' then CmpOp.lt else CmpOp.gt), String.mk rest)
      | _ =>
        if rest ≠ [] then
          some (some (if c = '<' then CmpOp.lt else CmpOp.gt), String.mk rest)
        else some (none, t)
    else if c = '~' then
      match rest with
      | '=' :: rest2 =>
        if rest2 ≠ [] then some (some CmpOp.approx, String.mk rest2)
        else some (none, t)
      | _ => some (none, t)
    else if c = '=' then
      if rest ≠ [] then some (some CmpOp.eq, String.mk rest)
      else some (none, t)
    else some (none, t)

/-- `EnhancedQueryEngine._value_matches`. A `none` stored value is the
Python `None` returned by `metadata.get` for a missing (or null) field.
Every `try`/`except` around a `float` conversion in the source returns
`False` on failure; that is the `| _, _ => false` arm of each numeric
case. The function is total: no exception escapes, as in the source. -/
def value_matches (node_value : Option PyVal) (target_value : PyVal) : Bool :=
  match node_value with
  | none => false
  | some v =>
    match target_value with
    | PyVal.str t =>
      match splitOp t with
      | none => pyLower (pyStr v) == pyLower t
      | some opval =>
        let val := pyStrip opval.2
        match opval.1 with
        | some CmpOp.approx => containsSub (pyLower (pyStr v)) (pyLower val)
        | some CmpOp.gt =>
          match pyFloat? v, parseFloatQ val with
          | some a, some b => decide (b < a)
          | _, _ => false
        | some CmpOp.lt =>
          match pyFloat? v, parseFloatQ val with
          | some a, some b => decide (a < b)
          | _, _ => false
        | some CmpOp.ge =>
          match pyFloat? v, parseFloatQ val with
          | some a, some b => decide (b ≤ a)
          | _, _ => false
        | some CmpOp.le =>
          match pyFloat? v, parseFloatQ val with
          | some a, some b => decide (a ≤ b)
          | _, _ => false
        | some CmpOp.eq => pyLower (pyStr v) == pyLower val
        | none => pyLower (pyStr v) == pyLower t
    | PyVal.list l => l.any (fun x => pyLower (pyStr v) == pyLower (pyStr (PyVal.str x)))
    | PyVal.num _ => v == target_value

/-! ### `_date_matches` and `_matches_filters`
(src/backend/query_engine.py, lines 205-216 and 268-275) -/

/-- `EnhancedQueryEngine._date_matches`. `iso` stands in for
`datetime.fromisoformat`; any exception inside the `try` (including
non-string arguments, an unparseable node date, or `parse_date`
raising) yields `False`, as the source's `except` clause does. -/
def date_matches (iso p : String → Option PyDateTime) (now : PyDateTime)
    (node_date target_date : PyVal) : Bool :=
  match node_date, target_date with
  | PyVal.str nd, PyVal.str t =>
    match iso (pyReplace1 'Z' "+00:00" nd) with
    | some node_dt =>
      match parse_date p now t with
      | Except.ok se => se.1.leb node_dt && node_dt.leb se.2
      | Except.error _ => false
    | none => false
  | _, _ => false

/-- `FILTERING_METADATA` (src/backend/indexer.py, lines 34-43). -/
def FILTERING_METADATA : List String :=
  ["created_time", "modified_time", "file_size", "dimensions", "duration",
   "coordinates", "page_count", "bitrate"]

/-- A retrieved/stored node: text, similarity score (`None` possible)
and a metadata dictionary (`none` values model Python `None`). -/
structure RNode where
  text : String
  score : Option ℚ
  metadata : List (String × Option PyVal)
deriving DecidableEq

/-- `node.metadata.get(key)`: `none` for a missing key or a stored
`None`. -/
def metaGet (n : RNode) (k : String) : Option PyVal :=
  (n.metadata.lookup k).bind id

/-- `EnhancedQueryEngine._matches_filters`: conjunction over the filter
dictionary; the `date` pseudo-key reads `created_time or modified_time`
(Python falsy-chaining), keys in `FILTERING_METADATA` go through
`_value_matches`, any other key is ignored. -/
def matches_filters (iso p : String → Option PyDateTime) (now : PyDateTime)
    (node : RNode) (filters : List (String × PyVal)) : Bool :=
  filters.all (fun kv =>
    if kv.1 = "date" then
      let node_date :=
        match metaGet node "created_time" with
        | some v => if pyTruthy v then some v else metaGet node "modified_time"
        | none => metaGet node "modified_time"
      match node_date with
      | none => false
      | some v => pyTruthy v && date_matches iso p now v kv.2
    else if FILTERING_METADATA.contains kv.1 then
      value_matches (metaGet node kv.1) kv.2
    else true)

/-! ### `_filter_by_relevance` (src/backend/query_engine.py, lines 233-266) -/

/-- `node.score or 0`: the sort key and comparison value. -/
def scoreOr0 (n : RNode) : ℚ :=
  n.score.getD 0

/-- Descending order on nodes by `score or 0`, as used by
`sorted(nodes, key=lambda x: x.score or 0, reverse=True)`. -/
def nodeGE (a b : RNode) : Prop :=
  scoreOr0 b ≤ scoreOr0 a

instance : DecidableRel nodeGE :=
  fun a b => inferInstanceAs (Decidable (scoreOr0 b ≤ scoreOr0 a))

instance : IsTotal RNode nodeGE :=
  ⟨fun a b => (le_total (scoreOr0 b) (scoreOr0 a)).imp id id⟩

instance : IsTrans RNode nodeGE :=
  ⟨fun _ _ _ h1 h2 => le_trans h2 h1⟩

/-- `EnhancedQueryEngine._filter_by_relevance`. The one-result branch
compares `sorted_nodes[0].score` (NOT `or 0`) against the threshold, so
a `None` score raises a `TypeError` there — modelled as `Except.error`.
The multi-result branch keeps the nodes whose `score or 0` reaches
`max(similarity_threshold, top_two_average * 0.7)`. -/
def filter_by_relevance (similarity_threshold : ℚ) (nodes : List RNode) :
    Except String (List RNode) :=
  if nodes = [] then Except.ok []
  else
    let sorted_nodes := List.insertionSort nodeGE nodes
    if sorted_nodes.length = 1 then
      match sorted_nodes.head? with
      | some n =>
        match n.score with
        | some s =>
          Except.ok (if similarity_threshold ≤ s then sorted_nodes else [])
        | none => Except.error "TypeError: NoneType and float comparison"
      | none => Except.ok []
    else if 1 < sorted_nodes.length then
      let top_avg := ((sorted_nodes.take 2).map scoreOr0).sum / 2
      let dynamic_threshold := max similarity_threshold (top_avg * (0.7 : ℚ))
      Except.ok (sorted_nodes.filter (fun n => decide (dynamic_threshold ≤ scoreOr0 n)))
    else Except.ok sorted_nodes

/-! ### `_metadata_only_search`, `_apply_metadata_filters` and
`hybrid_query` (src/backend/query_engine.py, lines 163-231) -/

/-- `EnhancedQueryEngine._metadata_only_search`: the loop over
`index.docstore.docs.values()` that appends every node matching all
filters. -/
def metadata_only_search (iso p : String → Option PyDateTime) (now : PyDateTime)
    (docstore : List RNode) (metadata_filters : List (String × PyVal)) : List RNode :=
  docstore.foldl
    (fun acc node =>
      if matches_filters iso p now node metadata_filters then acc ++ [node] else acc)
    []

/-- `EnhancedQueryEngine._apply_metadata_filters`: refine retrieved
nodes by the metadata filters (identity when the filter dict is empty). -/
def apply_metadata_filters (iso p : String → Option PyDateTime) (now : PyDateTime)
    (nodes : List RNode) (filters : List (String × PyVal)) : List RNode :=
  if filters = [] then nodes
  else
    nodes.foldl
      (fun acc node =>
        if matches_filters iso p now node filters then acc ++ [node] else acc)
      []

/-- Python `dict[k] = v` on an association-list dictionary. -/
def dictSet {α : Type _} (d : List (String × α)) (k : String) (v : α) :
    List (String × α) :=
  if d.any (fun kv => kv.1 = k) then
    d.map (fun kv => if kv.1 = k then (k, v) else kv)
  else d ++ [(k, v)]

/-- Python `d.update(new)`. -/
def dictUpdate (d new : List (String × PyVal)) : List (String × PyVal) :=
  new.foldl (fun acc kv => dictSet acc kv.1 kv.2) d

/-- `EnhancedQueryEngine.hybrid_query`. The query planner
(`_extract_metadata_filters`) and the vector retriever are external to
the claims about this function and appear as the parameters `extract`
and `retrieve`; `index` is the `get_index` result (`none` models a
falsy index, whose branch returns `[]`), carrying the docstore node
list. The optional `metadata_filters` argument is `[]` for Python
`None` (both falsy). -/
def hybrid_query
    (extract : String → String × List (String × PyVal))
    (retrieve : String → List RNode)
    (iso p : String → Option PyDateTime) (now : PyDateTime)
    (index : Option (List RNode))
    (similarity_threshold : ℚ)
    (query_text : String)
    (metadata_filters : List (String × PyVal)) :
    Except String (List RNode) :=
  let ce := extract query_text
  let cleaned_query := ce.1
  let extracted_filters :=
    if metadata_filters ≠ [] then dictUpdate ce.2 metadata_filters else ce.2
  match index with
  | none => Except.ok []
  | some docstore =>
    if pyStrip cleaned_query = "" then
      Except.ok (metadata_only_search iso p now docstore extracted_filters)
    else
      let nodes := retrieve cleaned_query
      match filter_by_relevance similarity_threshold nodes with
      | Except.error e => Except.error e
      | Except.ok relevant_nodes =>
        if extracted_filters ≠ [] then
          Except.ok (apply_metadata_filters iso p now relevant_nodes extracted_filters)
        else Except.ok relevant_nodes

/-! ### `EnhancedQueryEngine.query` (src/backend/query_engine.py,
lines 320-370): the answer-synthesis path -/

/-- One entry of the returned `sources` list. -/
structure Source where
  text : String
  metadata : List (String × Option PyVal)
  score : Option ℚ
  file_name : Option PyVal
  mime_type : Option PyVal
  web_view_link : Option PyVal
deriving DecidableEq

/-- `node.metadata.get(key, default)`: the default only applies to a
missing key; a stored `None` is returned as-is. -/
def metaGetD (n : RNode) (k : String) (dflt : PyVal) : Option PyVal :=
  match n.metadata.lookup k with
  | none => some dflt
  | some v => v

/-- The fixed not-found message returned when retrieval yields no
results (src/backend/query_engine.py, lines 340-344). -/
def notFoundMsg : String :=
  "I couldn\x27t find any relevant documents in your folder to answer this question. Please make sure the documents you\x27re looking for are in the selected folder and try again."

/-- Join strings with a separator (Python `sep.join`). -/
def joinSep (sep : String) : List String → String
  | [] => ""
  | [s] => s
  | s :: rest => s ++ sep ++ joinSep sep rest

/-- The context block `"\n\n".join(f"Document: {node.text}")`. -/
def buildContext (results : List RNode) : String :=
  joinSep "\n\n" (results.map (fun n => "Document: " ++ n.text))

/-- The generation prompt assembled by `query` (the f-string, with its
literal indentation). -/
def buildPrompt (query_text : String) (results : List RNode) : String :=
  "Based on the following documents, \n        please provide a comprehensive answer to the question: "
    ++ query_text
    ++ "\n        Documents: " ++ buildContext results
    ++ "\n        Please provide a very concise answer that synthesizes information \n        from the relevant documents. If the documents don\x27t contain enough \n        information to answer the question, please say so."

/-- One `sources` entry built from a retrieved node. -/
def mkSource (n : RNode) : Source :=
  { text := n.text
    metadata := n.metadata
    score := n.score
    file_name := metaGetD n "file_name" (PyVal.str "Unknown")
    mime_type := metaGetD n "mime_type" (PyVal.str "Unknown")
    web_view_link := metaGetD n "web_view_link" (PyVal.str "Unknown") }

/-- `EnhancedQueryEngine.query`: retrieve, and either return the fixed
not-found message with no sources, or invoke the LLM (`complete`, an
external collaborator) on the assembled prompt and return its text with
the sources list. -/
def query (retrieveQ : String → List RNode) (complete : String → String)
    (query_text : String) : String × List Source :=
  let results := retrieveQ query_text
  if results = [] then (notFoundMsg, [])
  else (complete (buildPrompt query_text results), results.map mkSource)

/-! ### Ingestion: `DocumentIndexer.create_index`
(src/backend/indexer.py, lines 62-149) and `index_folder`
(src/backend/google_drive_utils.py, lines 66-156)

The Drive service, the document readers and the Mongo/embedding
collaborators are external; what the claims exercise is the control
flow of `index_folder` and `create_index`.  A folder's listing is
modelled by `Folder`: the non-folder entries each carry the outcome of
`DocumentProcessor.process_file` on them (a list of Documents, possibly
empty, or a raised exception), and the folder entries carry their own
sub-listings.  The persistent state written by `create_index` (the
vector/doc stores written by `pipeline.run` plus the
`index_metadata` record upserted by `update_one(..., upsert=True)`)
is modelled by a registry of `IndexEntry`, upserted by `folder_id`. -/

/-- A normalized Document produced by the File Converter. -/
structure Document where
  text : String
  metadata : List (String × Option PyVal)
deriving DecidableEq

/-- `doc.metadata["absolute_path"] = absolute_id_path` (indexer.py line 107). -/
def setAbsolutePath (path : String) (d : Document) : Document :=
  { d with metadata := dictSet d.metadata "absolute_path" (some (PyVal.str path)) }

/-- One persisted index scope: the `index_metadata` record together
with the documents ingested for it. -/
structure IndexEntry where
  folder_id : String
  absolute_path : String
  docs : List Document
deriving DecidableEq

/-- `update_one({"folder_id": ...}, {"$set": metadata}, upsert=True)`:
replace the entry with this `folder_id`, or append it. -/
def upsertEntry (reg : List IndexEntry) (e : IndexEntry) : List IndexEntry :=
  if reg.any (fun x => x.folder_id = e.folder_id) then
    reg.map (fun x => if x.folder_id = e.folder_id then e else x)
  else reg ++ [e]

/-- `DocumentIndexer.create_index`. When `documents` is non-empty the
body runs: the absolute path is stamped on each document, the ingestion
pipeline persists them, and the local `metadata` record is upserted
into `<root>/index_metadata`. When `documents` is empty the
`if documents:` block is skipped, so the trailing `update_one` call
reads the never-assigned local variable `metadata` and raises
`NameError: name 'metadata' is not defined` — modelled as the error
branch, reached before any write. -/
def create_index (documents : List Document) (folder_id : String)
    (absolute_id_path : String) (registry : List IndexEntry) :
    Except String (List IndexEntry) :=
  if documents = [] then
    Except.error "name \x27metadata\x27 is not defined"
  else
    Except.ok (upsertEntry registry
      { folder_id := folder_id
        absolute_path := absolute_id_path
        docs := documents.map (setAbsolutePath absolute_id_path) })

/-- Outcome of `DocumentProcessor.process_file` on one file: the
returned Document list (possibly empty — "no content extracted"), or a
raised exception with its message. -/
inductive FileOutcome where
  | docs (l : List Document)
  | raise (msg : String)
deriving DecidableEq

/-- One non-folder Drive file in a listing. -/
structure FileSpec where
  name : String
  outcome : FileOutcome
deriving DecidableEq

/-- A Drive folder: its id, name, the non-folder files of its listing,
and its subfolders (the listing from `get_files_from_drive` is the
files plus one entry per subfolder, partitioned by MIME type as the
source loop does). -/
inductive Folder where
  | mk (id : String) (name : String) (files : List FileSpec) (subs : List Folder)

/-- The per-folder response dictionary built by `index_folder`
(`failed_files` is absent in Python when empty; here it is the empty
list). -/
structure IngestResponse where
  status : String
  message : String
  failed_files : List String
deriving DecidableEq

/-- The file-processing loop of `index_folder` (lines 96-112):
accumulate Documents and failure strings `"name (reason)"`. -/
def processFiles (files : List FileSpec) : List Document × List String :=
  files.foldl
    (fun acc f =>
      match f.outcome with
      | FileOutcome.docs ds =>
        if ds ≠ [] then (acc.1 ++ ds, acc.2)
        else (acc.1, acc.2 ++ [f.name ++ " (no content extracted)"])
      | FileOutcome.raise msg => (acc.1, acc.2 ++ [f.name ++ " (" ++ msg ++ ")"]))
    ([], [])

mutual

/-- `index_folder` (google_drive_utils.py, lines 66-156).  An empty
listing returns the "Processed 0 items" success response immediately,
before `create_index` is ever called.  Otherwise files are processed
with per-file failure capture, `create_index` is called (its exception
is re-raised as `HTTPException(500, "Failed to create index: ...")` —
the `Except.error` branch; `str()` of that exception, as seen by a
parent folder's catch, is `"500: ..."`), and subfolders are processed
recursively with per-subfolder failure capture.  Returns the response,
the processed-item count, and the registry state. -/
def index_folder (folder : Folder) (absolute_id_path : String)
    (registry : List IndexEntry) :
    Except String (IngestResponse × Nat × List IndexEntry) :=
  match folder with
  | Folder.mk fid _ files subs =>
    if files.length + subs.length = 0 then
      Except.ok
        ({ status := "success", message := "Processed 0 items", failed_files := [] },
          0, registry)
    else
      let processed := processFiles files
      match create_index processed.1 fid absolute_id_path registry with
      | Except.error e => Except.error ("500: Failed to create index: " ++ e)
      | Except.ok registry1 =>
        let total_files := files.length + subs.length - subs.length - processed.2.length
        let sub := index_subfolders subs absolute_id_path registry1
        let total := total_files + sub.1
        Except.ok
          ({ status := "success"
             message := "Processed " ++ natStr total ++ " items"
             failed_files := processed.2 ++ sub.2.1 },
            total, sub.2.2)

/-- The subfolder loop of `index_folder` (lines 132-145): recurse with
the extended canonical path; a raised exception from a subfolder is
caught, recorded as `"name (str(error))"`, and the loop continues. -/
def index_subfolders (subs : List Folder) (absolute_id_path : String)
    (registry : List IndexEntry) : Nat × List String × List IndexEntry :=
  match subs with
  | [] => (0, [], registry)
  | s :: rest =>
    match s with
    | Folder.mk sid sname _ _ =>
      match index_folder s (absolute_id_path ++ "/" ++ sid) registry with
      | Except.ok r =>
        let next := index_subfolders rest absolute_id_path r.2.2
        (r.2.1 + next.1, next.2.1, next.2.2)
      | Except.error e =>
        let next := index_subfolders rest absolute_id_path registry
        (next.1, (sname ++ " (" ++ e ++ ")") :: next.2.1, next.2.2)

end

/-! ### Claim-side definitions and concrete instances used in theorems -/

/-- Descending order on scores, claim-side ("the two highest scores"). -/
def ratGE (a b : ℚ) : Prop := b ≤ a

instance : DecidableRel ratGE :=
  fun a b => inferInstanceAs (Decidable (b ≤ a))

instance : IsTotal ℚ ratGE :=
  ⟨fun a b => (le_total b a).imp id id⟩

instance : IsTrans ℚ ratGE :=
  ⟨fun _ _ _ h1 h2 => le_trans h2 h1⟩

instance : IsAntisymm ℚ ratGE :=
  ⟨fun _ _ h1 h2 => le_antisymm h2 h1⟩

/-- Claim-side reading of "the average of the two highest scores":
sort the scores (`score or 0`) in descending order and average the
first two. -/
def topTwoAvg (nodes : List RNode) : ℚ :=
  let ss := List.insertionSort ratGE (nodes.map scoreOr0)
  (ss.getD 0 0 + ss.getD 1 0) / 2

/-- Claim-side effective threshold:
`max(static_floor, 0.7 × top_two_average)`. -/
def relevanceThreshold (static_floor : ℚ) (nodes : List RNode) : ℚ :=
  max static_floor ((0.7 : ℚ) * topTwoAvg nodes)

/-- A scored node with no metadata, for the worked examples of the spec. -/
def exN (q : ℚ) : RNode := ⟨"", some q, []⟩

/-- The filter dictionary `hybrid_query` ends up using: the extracted
filters, updated with the explicit `metadata_filters` argument when that
is non-empty (claim-side restatement of lines 169-172). -/
def effectiveFilters (extract : String → String × List (String × PyVal))
    (q : String) (mf : List (String × PyVal)) : List (String × PyVal) :=
  if mf ≠ [] then dictUpdate (extract q).2 mf else (extract q).2

/-- A fixed `dateutil.parser.parse` oracle for concrete runs: resolves
the literal tokens the spec's examples use (current year 2025). -/
def pFix : String → Option PyDateTime := fun s =>
  if s = "july 10" then some ⟨2025, 7, 10, 0, 0, 0⟩
  else if s = "january 2024" then some ⟨2024, 1, 1, 0, 0, 0⟩
  else if s = "march 2024" then some ⟨2024, 3, 1, 0, 0, 0⟩
  else none

/-- A `dateutil` oracle that fails on everything. -/
def pNone : String → Option PyDateTime := fun _ => none

/-- A fixed `datetime.fromisoformat` oracle for concrete runs. -/
def isoFix : String → Option PyDateTime := fun s =>
  if s = "2025-07-15T12:00:00" then some ⟨2025, 7, 15, 12, 0, 0⟩
  else if s = "2025-01-01T00:00:00" then some ⟨2025, 1, 1, 0, 0, 0⟩
  else none

/-- The fixed current time used in concrete runs. -/
def nowFix : PyDateTime := ⟨2025, 7, 15, 12, 0, 0⟩

/-- A node created at 2025-01-01, with no score. -/
def nodeJan : RNode :=
  ⟨"doc", none, [("created_time", some (PyVal.str "2025-01-01T00:00:00"))]⟩

/-- A node whose creation date equals the current time exactly. -/
def nodeNow : RNode :=
  ⟨"doc", none, [("created_time", some (PyVal.str "2025-07-15T12:00:00"))]⟩

/-- A planner oracle producing a whitespace-only cleaned query and one
`file_size` filter. -/
def extractMetaOnly : String → String × List (String × PyVal) :=
  fun _ => ("   ", [("file_size", PyVal.str "42")])

/-- A planner oracle producing a non-empty cleaned query and no filters. -/
def extractPlain : String → String × List (String × PyVal) :=
  fun _ => ("hello", [])

/-- A retriever oracle returning no hits. -/
def retrieveNone : String → List RNode := fun _ => []

/-- An LLM-completion oracle with a recognizable fixed output. -/
def completeFix : String → String := fun _ => "LLM ANSWER"

/-- A node with a `file_size` of 42 (stored as the string the Drive API
returns), no score. -/
def nodeSize42 : RNode :=
  ⟨"x", none, [("file_size", some (PyVal.str "42"))]⟩

/-- A node lacking `file_size` entirely. -/
def nodeNoSize : RNode :=
  ⟨"y", none, [("file_name", some (PyVal.str "a.txt"))]⟩

/-- A node carrying both `file_size` and `duration` fields. -/
def nodeSizeDur : RNode :=
  ⟨"z", none, [("file_size", some (PyVal.str "42")), ("duration", some (PyVal.str "9"))]⟩

/-! ### Shared lemmas -/

/-- The append-in-a-loop idiom of `_metadata_only_search` and
`_apply_metadata_filters` is `List.filter`. -/
theorem foldl_filter_append (P : RNode → Bool) :
    ∀ (l acc : List RNode),
      l.foldl (fun acc n => if P n then acc ++ [n] else acc) acc = acc ++ l.filter P
  | [], acc => by simp
  | n :: l, acc => by
    by_cases h : P n <;>
      simp [List.foldl_cons, h, foldl_filter_append P l, List.filter_cons]

/-- Sorting nodes by score and then reading the scores equals sorting
the scores: the two descending sorts agree. -/
theorem map_scoreOr0_insertionSort (nodes : List RNode) :
    (List.insertionSort nodeGE nodes).map scoreOr0 =
      List.insertionSort ratGE (nodes.map scoreOr0) := by
  refine List.eq_of_perm_of_sorted (r := ratGE) ?_ ?_ ?_
  · exact ((List.perm_insertionSort nodeGE nodes).map scoreOr0).trans
      (List.perm_insertionSort ratGE (nodes.map scoreOr0)).symm
  · exact List.Pairwise.map scoreOr0 (fun a b h => h)
      (List.sorted_insertionSort nodeGE nodes)
  · exact List.sorted_insertionSort ratGE _

/-! ### Claim theorems -/

/-- C1: for every retrieved result list with at least two scored nodes,
`_filter_by_relevance` keeps exactly (up to the descending reordering,
hence stated as a permutation) the nodes whose score is at least
`max(static_floor, 0.7 × average of the two highest scores)`; moreover,
on the spec's worked examples, scores `[0.9, 0.85, 0.5, 0.3]` with
floor `0.3` keep exactly `{0.9, 0.85}` and scores `[0.4, 0.38]` with
floor `0.3` keep both. -/
theorem C1_dynamic_relevance_threshold (static_floor : ℚ) (nodes : List RNode)
    (h2 : 2 ≤ nodes.length) :
    (∃ kept, filter_by_relevance static_floor nodes = Except.ok kept ∧
        kept.Perm (nodes.filter
          (fun n => decide (relevanceThreshold static_floor nodes ≤ scoreOr0 n))))
    ∧ filter_by_relevance (0.3 : ℚ) [exN 0.9, exN 0.85, exN 0.5, exN 0.3] =
        Except.ok [exN 0.9, exN 0.85]
    ∧ filter_by_relevance (0.3 : ℚ) [exN 0.4, exN 0.38] =
        Except.ok [exN 0.4, exN 0.38] := by
  refine ⟨?_, ?_, ?_⟩
  · have hne : nodes ≠ [] := by
      intro h
      rw [h] at h2
      simp at h2
    have hlen : (List.insertionSort nodeGE nodes).length = nodes.length :=
      (List.perm_insertionSort nodeGE nodes).length_eq
    obtain ⟨a, b, t, hab⟩ : ∃ a b t, List.insertionSort nodeGE nodes = a :: b :: t := by
      rcases hs : List.insertionSort nodeGE nodes with _ | ⟨a, _ | ⟨b, t⟩⟩
      · rw [hs] at hlen
        simp at hlen
        omega
      · rw [hs] at hlen
        simp at hlen
        omega
      · exact ⟨a, b, t, rfl⟩
    have hres : filter_by_relevance static_floor nodes =
        Except.ok ((a :: b :: t).filter
          (fun n => decide (max static_floor
            ((scoreOr0 a + scoreOr0 b) / 2 * (0.7 : ℚ)) ≤ scoreOr0 n))) := by
      unfold filter_by_relevance
      rw [if_neg hne, hab]
      simp [List.take, List.sum_cons]
    have hperm : (a :: b :: t).Perm nodes := hab ▸ List.perm_insertionSort nodeGE nodes
    have htta : relevanceThreshold static_floor nodes =
        max static_floor ((scoreOr0 a + scoreOr0 b) / 2 * (0.7 : ℚ)) := by
      unfold relevanceThreshold topTwoAvg
      rw [← map_scoreOr0_insertionSort, hab]
      simp [List.getD_cons_zero, List.getD_cons_succ]
      ring_nf
    refine ⟨_, hres, ?_⟩
    rw [htta]
    exact hperm.filter _
  · norm_num [filter_by_relevance, List.insertionSort, List.orderedInsert, nodeGE,
      scoreOr0, exN, List.filter, max_def]
    all_goals intro h
    all_goals simp at h
  · norm_num [filter_by_relevance, List.insertionSort, List.orderedInsert, nodeGE,
      scoreOr0, exN, List.filter, max_def]

/-- Witness for C1: the theorem applied to the spec's four-score
example list, whose length hypothesis is discharged concretely. -/
theorem C1_dynamic_relevance_threshold_witness :
    2 ≤ ([exN 0.9, exN 0.85, exN 0.5, exN 0.3] : List RNode).length ∧
      ((∃ kept,
          filter_by_relevance (0.3 : ℚ) [exN 0.9, exN 0.85, exN 0.5, exN 0.3] =
            Except.ok kept ∧
          kept.Perm (([exN 0.9, exN 0.85, exN 0.5, exN 0.3] : List RNode).filter
            (fun n => decide
              (relevanceThreshold (0.3 : ℚ) [exN 0.9, exN 0.85, exN 0.5, exN 0.3] ≤
                scoreOr0 n))))
        ∧ filter_by_relevance (0.3 : ℚ) [exN 0.9, exN 0.85, exN 0.5, exN 0.3] =
            Except.ok [exN 0.9, exN 0.85]
        ∧ filter_by_relevance (0.3 : ℚ) [exN 0.4, exN 0.38] =
            Except.ok [exN 0.4, exN 0.38]) :=
  ⟨by decide, C1_dynamic_relevance_threshold 0.3 _ (by decide)⟩

/-- C2: the claim says an empty folder still gets its IndexScope /
canonical-path registry entry established and reports success.  The
code diverges on both empty-folder shapes: (a) a folder with zero
children returns "Processed 0 items" success WITHOUT ever calling
`create_index`, so no registry entry is established (the returned
registry is unchanged and contains no record for the folder); (b) a
folder whose listing holds only subfolders (zero files) reaches
`create_index` with an empty Documents list, which raises
`NameError: name 'metadata' is not defined` (indexer.py line 145 reads
the local only assigned inside `if documents:`), re-raised as
HTTPException 500 — an error, not success.  This theorem evaluates the
embedded code on both failing inputs. -/
theorem C2_empty_folder_divergence :
    (index_folder (Folder.mk "emptyF" "emptyF" [] []) "/root/emptyF" [] =
      Except.ok
        ({ status := "success", message := "Processed 0 items", failed_files := [] },
          0, [])
      ∧ ([] : List IndexEntry).all
          (fun e => e.absolute_path ≠ "/root/emptyF") = true)
    ∧ index_folder (Folder.mk "noFiles" "noFiles" [] [Folder.mk "sub" "sub" [] []])
        "/root/noFiles" [] =
      Except.error "500: Failed to create index: name \x27metadata\x27 is not defined"
    ∧ create_index [] "noFiles" "/root/noFiles" [] =
      Except.error "name \x27metadata\x27 is not defined" := by
  decide

/-- C3: the claim says a folder of N files where exactly one raises
still indexes the other N-1 files' Documents, records exactly one
FailureReason naming the file with its error, and reports success.
That holds when the other files yield Documents (second conjunct, at
N = 3), but fails at N = 1: with no other documents accumulated,
`create_index` is called on an empty list and raises the `metadata`
NameError, so ingestion aborts with HTTPException 500 instead of
reporting success with one FailureReason (first conjunct). -/
theorem C3_partial_failure_divergence :
    index_folder
        (Folder.mk "F1" "F1" [⟨"only.pdf", FileOutcome.raise "download failed"⟩] [])
        "/root/F1" [] =
      Except.error "500: Failed to create index: name \x27metadata\x27 is not defined"
    ∧ index_folder
        (Folder.mk "F3" "F3"
          [⟨"a.txt", FileOutcome.docs [⟨"A", []⟩]⟩,
           ⟨"bad.pdf", FileOutcome.raise "download failed"⟩,
           ⟨"b.txt", FileOutcome.docs [⟨"B", []⟩]⟩] [])
        "/root/F3" [] =
      Except.ok
        ({ status := "success", message := "Processed 2 items",
           failed_files := ["bad.pdf (download failed)"] },
          2,
          [⟨"F3", "/root/F3",
            [⟨"A", [("absolute_path", some (PyVal.str "/root/F3"))]⟩,
             ⟨"B", [("absolute_path", some (PyVal.str "/root/F3"))]⟩]⟩]) := by
  decide

/-- C4 counterexample: the claim says each relative term yields a
half-open `[start, end)` interval and a node matches exactly when it
lies in that interval.  With the current time fixed, `"yesterday"`
yields the pair `(now - 1 day, now)`, and a node dated exactly `now`
(equal to the interval end, hence NOT in `[start, end)` — third
conjunct) still matches — the code's comparison `start <= d <= end` is
inclusive on both ends. -/
theorem C4_half_open_counterexample :
    parse_date pNone nowFix "yesterday" =
      Except.ok (⟨2025, 7, 14, 12, 0, 0⟩, nowFix)
    ∧ date_matches isoFix pNone nowFix (PyVal.str "2025-07-15T12:00:00")
        (PyVal.str "yesterday") = true
    ∧ PyDateTime.ltb nowFix nowFix = false := by
  decide

/-- C4 amended: `before X` yields `(datetime.min, X)`, `after X` yields
`(X, datetime.max)` (e.g. "after July 10" resolves to
`[2025-07-10T00:00:00, max]`), `between X and Y` yields `[X, Y]`, and
each relative term yields a concrete CLOSED interval `[start, end]`
computed from the current time (`end = now`, except `yesterday` where
`end = start + 1 day = now`); a node's date matches the filter exactly
when `start ≤ date ≤ end`, both endpoints INCLUSIVE (first conjunct,
for every parser oracle, current time and date strings) — not the
half-open `[start, end)`. -/
theorem C4_amended_closed_intervals :
    (∀ (iso p : String → Option PyDateTime) (now : PyDateTime) (nd t : String),
        date_matches iso p now (PyVal.str nd) (PyVal.str t) = true ↔
          ∃ d se, iso (pyReplace1 'Z' "+00:00" nd) = some d ∧
            parse_date p now t = Except.ok se ∧
            se.1.leb d = true ∧ d.leb se.2 = true)
    ∧ parse_date pFix nowFix "after July 10" =
        Except.ok (⟨2025, 7, 10, 0, 0, 0⟩, pyMaxDT)
    ∧ parse_date pFix nowFix "before July 10" =
        Except.ok (pyMinDT, ⟨2025, 7, 10, 0, 0, 0⟩)
    ∧ parse_date pFix nowFix "between January 2024 and March 2024" =
        Except.ok (⟨2024, 1, 1, 0, 0, 0⟩, ⟨2024, 3, 1, 0, 0, 0⟩)
    ∧ parse_date pNone nowFix "yesterday" =
        Except.ok (⟨2025, 7, 14, 12, 0, 0⟩, ⟨2025, 7, 15, 12, 0, 0⟩)
    ∧ parse_date pNone nowFix "last week" =
        Except.ok (⟨2025, 7, 8, 12, 0, 0⟩, nowFix)
    ∧ parse_date pNone nowFix "last month" =
        Except.ok (⟨2025, 6, 15, 12, 0, 0⟩, nowFix)
    ∧ parse_date pNone nowFix "last year" =
        Except.ok (⟨2024, 7, 15, 12, 0, 0⟩, nowFix)
    ∧ parse_date pNone nowFix "this month" =
        Except.ok (⟨2025, 7, 1, 12, 0, 0⟩, nowFix)
    ∧ parse_date pNone nowFix "this year" =
        Except.ok (⟨2025, 1, 1, 12, 0, 0⟩, nowFix) := by
  refine ⟨?_, by decide⟩
  intro iso p now nd t
  simp only [date_matches]
  rcases hiso : iso (pyReplace1 'Z' "+00:00" nd) with _ | d
  · simp
  · rcases hpd : parse_date p now t with e | se
    · simp
    · simp [Bool.and_eq_true]

/-- C5 counterexample: the claim says an unparseable date filter is
dropped and the query proceeds as if the filter were absent.  On a
node dated 2025-01-01 and the unparseable filter text "blurg": with
the filter absent the node matches (and a metadata-only query returns
it), but with the filter present the node does NOT match (and the same
query returns nothing) — the filter is not dropped, it rejects every
node. -/
theorem C5_unparseable_filter_counterexample :
    parse_date pNone nowFix "blurg" = Except.error "Could not parse date: blurg"
    ∧ matches_filters isoFix pNone nowFix nodeJan [("date", PyVal.str "blurg")] = false
    ∧ matches_filters isoFix pNone nowFix nodeJan [] = true
    ∧ metadata_only_search isoFix pNone nowFix [nodeJan] [("date", PyVal.str "blurg")] = []
    ∧ metadata_only_search isoFix pNone nowFix [nodeJan] [] = [nodeJan] := by
  decide

/-- C5 amended: an unparseable date filter does not propagate an
exception and does not abort the query, but it is not dropped either:
the parse failure is caught inside date matching and treated as a
failed match, so EVERY node fails that filter (first conjunct, for
every oracle, node and remaining filters); a plan with zero filters
remains valid and matches every node (second conjunct). -/
theorem C5_amended_unparseable_filter_matches_nothing
    (iso p : String → Option PyDateTime) (now : PyDateTime) (node : RNode)
    (t : String) (fs : List (String × PyVal)) (msg : String)
    (herr : parse_date p now t = Except.error msg) :
    matches_filters iso p now node (("date", PyVal.str t) :: fs) = false
    ∧ matches_filters iso p now node [] = true := by
  constructor
  · unfold matches_filters
    rw [List.all_cons]
    have hdm : ∀ v : PyVal, date_matches iso p now v (PyVal.str t) = false := by
      intro v
      cases v with
      | str nd =>
        simp only [date_matches]
        rcases hiso : iso (pyReplace1 'Z' "+00:00" nd) with _ | d
        · simp
        · rw [herr]
      | num q => simp [date_matches]
      | list l => simp [date_matches]
    simp only [if_pos rfl]
    cases hcg : metaGet node "created_time" with
    | none =>
      cases hmg : metaGet node "modified_time" with
      | none => simp
      | some v => simp [hdm v]
    | some v =>
      by_cases hv : pyTruthy v = true
      · simp [hv, hdm v]
      · cases hmg : metaGet node "modified_time" with
        | none => simp [hv]
        | some w => simp [hv, hdm w]
  · rfl

/-- Witness for C5 amended: instantiated at the unparseable filter text
"blurg" on the 2025-01-01 node. -/
theorem C5_amended_witness :
    parse_date pNone nowFix "blurg" = Except.error "Could not parse date: blurg"
    ∧ (matches_filters isoFix pNone nowFix nodeJan [("date", PyVal.str "blurg")] = false
       ∧ matches_filters isoFix pNone nowFix nodeJan [] = true) :=
  ⟨by decide,
    C5_amended_unparseable_filter_matches_nothing isoFix pNone nowFix nodeJan
      "blurg" [] "Could not parse date: blurg" (by decide)⟩

/-- Whatever `_apply_metadata_filters` returns is a sublist of its
input: it only removes nodes. -/
theorem apply_metadata_filters_sublist (iso p : String → Option PyDateTime)
    (now : PyDateTime) (nodes : List RNode) (filters : List (String × PyVal)) :
    (apply_metadata_filters iso p now nodes filters).Sublist nodes := by
  unfold apply_metadata_filters
  by_cases hf : filters = []
  · rw [if_pos hf]
  · rw [if_neg hf]
    rw [foldl_filter_append (fun node => matches_filters iso p now node filters)
      nodes []]
    rw [List.nil_append]
    exact List.filter_sublist nodes

/-- C6: when the cleaned query is empty or whitespace-only after filter
extraction, `hybrid_query` performs no semantic search (the retriever
oracle is universally quantified and absent from the result) and
returns exactly the docstore nodes satisfying every effective metadata
filter. -/
theorem C6_empty_query_metadata_only_scan
    (extract : String → String × List (String × PyVal))
    (retrieve : String → List RNode)
    (iso p : String → Option PyDateTime) (now : PyDateTime)
    (docstore : List RNode) (st : ℚ) (q : String)
    (mf : List (String × PyVal))
    (h : pyStrip (extract q).1 = "") :
    hybrid_query extract retrieve iso p now (some docstore) st q mf =
      Except.ok (docstore.filter
        (fun n => matches_filters iso p now n (effectiveFilters extract q mf))) := by
  simp only [hybrid_query, effectiveFilters, metadata_only_search]
  rw [if_pos h]
  exact congrArg Except.ok
    ((foldl_filter_append
        (fun node => matches_filters iso p now node
          (if mf ≠ [] then dictUpdate (extract q).2 mf else (extract q).2))
        docstore []).trans (List.nil_append _))

/-- Witness for C6: a planner oracle yielding a whitespace-only cleaned
query and a `file_size` filter, on a two-node docstore. -/
theorem C6_empty_query_metadata_only_scan_witness :
    pyStrip (extractMetaOnly "file_size: 42").1 = "" ∧
    hybrid_query extractMetaOnly retrieveNone isoFix pNone nowFix
        (some [nodeSize42, nodeNoSize]) 0 "file_size: 42" [] =
      Except.ok ([nodeSize42, nodeNoSize].filter
        (fun n => matches_filters isoFix pNone nowFix n
          (effectiveFilters extractMetaOnly "file_size: 42" []))) :=
  ⟨by decide,
    C6_empty_query_metadata_only_scan extractMetaOnly retrieveNone isoFix pNone
      nowFix [nodeSize42, nodeNoSize] 0 "file_size: 42" [] (by decide)⟩

/-- C7: for a non-empty cleaned query, the pipeline is semantic
retrieval, then relevance filtering, then metadata filtering, and the
final result is a sublist of the relevance-filtered set — the metadata
stage only removes nodes, so no node rejected by the relevance
threshold can be re-admitted. -/
theorem C7_metadata_filters_only_remove
    (extract : String → String × List (String × PyVal))
    (retrieve : String → List RNode)
    (iso p : String → Option PyDateTime) (now : PyDateTime)
    (docstore : List RNode) (st : ℚ) (q : String)
    (mf : List (String × PyVal)) (res : List RNode)
    (hne : pyStrip (extract q).1 ≠ "")
    (hok : hybrid_query extract retrieve iso p now (some docstore) st q mf =
      Except.ok res) :
    ∃ rel, filter_by_relevance st (retrieve (extract q).1) = Except.ok rel ∧
      res.Sublist rel := by
  simp only [hybrid_query] at hok
  rw [if_neg hne] at hok
  rcases hrel : filter_by_relevance st (retrieve (extract q).1) with e | rel
  · rw [hrel] at hok
    exact absurd hok (by simp)
  · rw [hrel] at hok
    refine ⟨rel, rfl, ?_⟩
    have hok' : (if (if mf ≠ [] then dictUpdate (extract q).2 mf else (extract q).2) ≠ []
        then Except.ok (apply_metadata_filters iso p now rel
          (if mf ≠ [] then dictUpdate (extract q).2 mf else (extract q).2))
        else Except.ok rel) = Except.ok (ε := String) res := hok
    by_cases hf : (if mf ≠ [] then dictUpdate (extract q).2 mf else (extract q).2) ≠ []
    · rw [if_pos hf] at hok'
      have hres : apply_metadata_filters iso p now rel
          (if mf ≠ [] then dictUpdate (extract q).2 mf else (extract q).2) = res :=
        Except.ok.inj hok'
      rw [← hres]
      exact apply_metadata_filters_sublist iso p now rel _
    · rw [if_neg hf] at hok'
      rw [← Except.ok.inj hok']

/-- Witness for C7: a plain query with an empty retrieval, so the
hypotheses evaluate concretely. -/
theorem C7_metadata_filters_only_remove_witness :
    pyStrip (extractPlain "hello").1 ≠ "" ∧
    hybrid_query extractPlain retrieveNone isoFix pNone nowFix (some []) 0
        "hello" [] = Except.ok [] ∧
    (∃ rel, filter_by_relevance 0 (retrieveNone (extractPlain "hello").1) =
        Except.ok rel ∧ List.Sublist ([] : List RNode) rel) :=
  ⟨by decide, by decide,
    C7_metadata_filters_only_remove extractPlain retrieveNone isoFix pNone nowFix
      [] 0 "hello" [] [] (by decide) (by decide)⟩

/-- C8: when retrieval returns no nodes, `query` returns the fixed
not-found message and an empty sources list; the LLM collaborator
(`complete`) is universally quantified and never reached on this path,
so the result is the same for every completion oracle. -/
theorem C8_empty_retrieval_fixed_message
    (retrieveQ : String → List RNode) (complete : String → String) (q : String)
    (h : retrieveQ q = []) :
    query retrieveQ complete q = (notFoundMsg, []) := by
  simp only [query]
  rw [if_pos h]

/-- Witness for C8: an always-empty retriever and a recognizable LLM
oracle whose output does not appear in the result. -/
theorem C8_empty_retrieval_fixed_message_witness :
    retrieveNone "any question" = [] ∧
    query retrieveNone completeFix "any question" = (notFoundMsg, []) :=
  ⟨rfl, C8_empty_retrieval_fixed_message retrieveNone completeFix "any question" rfl⟩

/-- C9: for the numeric comparison operators `>`, `<`, `>=`, `<=`, if
either the stored node value or the filter value cannot be interpreted
as a number (`float` fails, including a missing/None stored value),
`_value_matches` returns `false`.  The embedding is a total `Bool`
function, reflecting that the source's `try`/`except` blocks let no
exception escape for any stored or filter value. -/
theorem C9_numeric_comparison_fails_closed
    (nv : Option PyVal) (t : String) (op : CmpOp) (val : String)
    (hsplit : splitOp t = some (some op, val))
    (hnum : op = CmpOp.gt ∨ op = CmpOp.lt ∨ op = CmpOp.ge ∨ op = CmpOp.le)
    (hfail : nv.bind pyFloat? = none ∨ parseFloatQ (pyStrip val) = none) :
    value_matches nv (PyVal.str t) = false := by
  cases nv with
  | none => rfl
  | some v =>
    have hv : pyFloat? v = none ∨ parseFloatQ (pyStrip val) = none := by
      rcases hfail with h | h
      · left
        simpa using h
      · right
        exact h
    rcases hnum with rfl | rfl | rfl | rfl <;>
      rcases hpf : pyFloat? v with _ | a <;>
        rcases hpt : parseFloatQ (pyStrip val) with _ | b <;>
          simp [value_matches, hsplit, hpf, hpt] <;>
            (rcases hv with h | h <;> simp_all)

/-- Witness for C9: filter text `">5"` against the non-numeric stored
value `"abc"`. -/
theorem C9_numeric_comparison_fails_closed_witness :
    splitOp ">5" = some (some CmpOp.gt, "5") ∧
    (some (PyVal.str "abc") : Option PyVal).bind pyFloat? = none ∧
    value_matches (some (PyVal.str "abc")) (PyVal.str ">5") = false :=
  ⟨by decide, by decide,
    C9_numeric_comparison_fails_closed (some (PyVal.str "abc")) ">5" CmpOp.gt "5"
      (by decide) (Or.inl rfl) (Or.inl (by decide))⟩

/-- C10: a node whose metadata lacks a field in the filterable set
(`FILTERING_METADATA`) never matches a filter on that field, for every
filter value and operator (first conjunct); and appending any filter to
a filter dictionary can only shrink the matching set: a node matching
the extended dictionary matches the original (second conjunct). -/
theorem C10_missing_field_never_matches_and_filters_shrink :
    (∀ (iso p : String → Option PyDateTime) (now : PyDateTime) (node : RNode)
        (key : String) (v : PyVal) (fs : List (String × PyVal)),
        FILTERING_METADATA.contains key = true → metaGet node key = none →
        matches_filters iso p now node ((key, v) :: fs) = false)
    ∧ (∀ (iso p : String → Option PyDateTime) (now : PyDateTime) (node : RNode)
        (fs : List (String × PyVal)) (kv : String × PyVal),
        matches_filters iso p now node (fs ++ [kv]) = true →
        matches_filters iso p now node fs = true) := by
  constructor
  · intro iso p now node key v fs hkey hnone
    have hkd : key ≠ "date" := by
      intro hd
      subst hd
      revert hkey
      decide
    unfold matches_filters
    simp only [List.all_cons]
    rw [if_neg hkd, if_pos hkey, hnone]
    simp [value_matches]
  · intro iso p now node fs kv h
    unfold matches_filters at h ⊢
    rw [List.all_append, Bool.and_eq_true] at h
    exact h.1

/-- Witness for C10: part one at a `file_size` filter on a node lacking
the field; part two at a two-filter dictionary both of whose filters
the node satisfies. -/
theorem C10_missing_field_never_matches_witness :
    FILTERING_METADATA.contains "file_size" = true ∧
    metaGet nodeNoSize "file_size" = none ∧
    matches_filters isoFix pNone nowFix nodeNoSize
      [("file_size", PyVal.str "42")] = false ∧
    matches_filters isoFix pNone nowFix nodeSizeDur
      ([("file_size", PyVal.str "42")] ++ [("duration", PyVal.str "9")]) = true ∧
    matches_filters isoFix pNone nowFix nodeSizeDur
      [("file_size", PyVal.str "42")] = true :=
  ⟨by decide, by decide,
    C10_missing_field_never_matches_and_filters_shrink.1 isoFix pNone nowFix
      nodeNoSize "file_size" (PyVal.str "42") [] (by decide) (by decide),
    by decide,
    C10_missing_field_never_matches_and_filters_shrink.2 isoFix pNone nowFix
      nodeSizeDur [("file_size", PyVal.str "42")] ("duration", PyVal.str "9")
      (by decide)⟩

end Askit
